import Mathlib

/-!
# Verification of the auth / validation pipeline

Shallow embedding of the authentication and request-validation core of the
fullstack monorepo starter: the Zod validation middleware, the JWT utilities,
the auth middleware, the auth service (register / login / profile), the auth
routes, and the global error handler. Each definition mirrors the
corresponding TypeScript source; theorems settle the frozen claims.
-/

namespace FullstackAuth

/-! ## JSON-like request values -/

/-- JSON-like values carried in request bodies (enough structure for the
schemas in `auth.validator.ts`: strings, numbers, booleans, null, objects). -/
inductive JVal where
  | str (s : String)
  | num (n : Int)
  | jbool (b : Bool)
  | jnull
  | obj (fields : List (String × JVal))

/-- Look up a key in a JSON object's field list (first match, as in JS
property access on the parsed body). -/
def lookupField (fields : List (String × JVal)) (key : String) : Option JVal :=
  (fields.find? (fun kv => kv.1 = key)).map (fun kv => kv.2)

/-! ## Model of the Zod schemas of `auth.validator.ts`

`registerSchema` and `loginSchema` are plain `z.object` schemas whose fields
are all `z.string()` with checks (`email`, `min`).  The model covers exactly
that fragment: an object schema is a list of (key, string-field) pairs; a
string field carries its ordered list of checks.  Zod runs every check of a
field and collects every issue, and an object schema collects the issues of
all its fields; unrecognized keys are stripped on success (default `strip`
mode of `z.object`). -/

/-- One Zod issue, after the middleware's `issue.path.join(".")`: for these
flat object-of-string schemas the joined path is just the field key (or `""`
when the whole input is not an object). -/
structure ZIssue where
  path : String
  message : String
  deriving Repr, DecidableEq

/-- Split a character list at every occurrence of a separator character
(kernel-reducible model of splitting a JS string on a one-character
separator). -/
def splitOnCharAux (sep : Char) : List Char → List Char → List (List Char)
  | [], acc => [acc.reverse]
  | c :: cs, acc =>
      if c = sep then acc.reverse :: splitOnCharAux sep cs []
      else splitOnCharAux sep cs (c :: acc)

/-- Split a string on a one-character separator. -/
def splitOnChar (sep : Char) (s : String) : List String :=
  (splitOnCharAux sep s.toList []).map (fun l => ⟨l⟩)

/-- Models Zod's email-format predicate (`z.string().email()`): a nonempty
local part, one `"@"`, and a dotted domain. The claims do not depend on the
exact extension of this predicate, only on it being a boolean check. -/
def isEmail (s : String) : Bool :=
  match splitOnChar '@' s with
  | [lp, dom] =>
      !lp.toList.isEmpty && !dom.toList.isEmpty && dom.toList.contains '.' &&
        !(List.isPrefixOf ['.'] dom.toList) && !(List.isSuffixOf ['.'] dom.toList)
  | _ => false

/-- A single check on a `z.string()` field, with its custom message. -/
inductive StrCheck where
  | email (msg : String)
  | minLen (n : Nat) (msg : String)
  deriving Repr, DecidableEq

/-- Run one string check; `some msg` is a violation (Zod adds one issue per
failing check and keeps running the remaining checks). -/
def runStrCheck (c : StrCheck) (s : String) : Option String :=
  match c with
  | .email msg => if isEmail s then none else some msg
  | .minLen n msg => if n ≤ s.length then none else some msg

/-- A `z.string()` field schema: its ordered checks. -/
structure ZStringField where
  checks : List StrCheck
  deriving Repr, DecidableEq

/-- The issues a field contributes for a given (optional) input value:
missing key → `Required`; non-string → invalid-type issue; string → one
issue per violated check. -/
def fieldIssues (f : ZStringField) (key : String) (v : Option JVal) : List ZIssue :=
  match v with
  | none => [⟨key, "Required"⟩]
  | some (.str s) => (f.checks.filterMap (fun c => runStrCheck c s)).map (fun m => ⟨key, m⟩)
  | some _ => [⟨key, "Expected string, received other"⟩]

/-- The parsed value a field contributes when it has no issues. -/
def fieldParsed (v : Option JVal) : Option JVal :=
  match v with
  | some (.str s) => some (.str s)
  | _ => none

/-- An object schema over string fields (the shape of `registerSchema` and
`loginSchema`). -/
structure ZObjectSchema where
  shape : List (String × ZStringField)
  deriving Repr, DecidableEq

/-- All issues of an object schema on an object's fields: the concatenation,
in shape order, of every field's issues (Zod reports every violated
constraint, not just the first). -/
def objectIssues (schema : ZObjectSchema) (fields : List (String × JVal)) : List ZIssue :=
  schema.shape.flatMap (fun kf => fieldIssues kf.2 kf.1 (lookupField fields kf.1))

/-- The success output of an object schema: only the shape's keys, with their
parsed values — unrecognized keys are stripped (`z.object` default). -/
def objectParsed (schema : ZObjectSchema) (fields : List (String × JVal)) : JVal :=
  .obj (schema.shape.filterMap
    (fun kf => (fieldParsed (lookupField fields kf.1)).map (fun v => (kf.1, v))))

/-- Model of `schema.safeParse(data)`: success result or the full issue list. -/
def safeParse (schema : ZObjectSchema) (v : JVal) : Except (List ZIssue) JVal :=
  match v with
  | .obj fields =>
      if objectIssues schema fields = [] then .ok (objectParsed schema fields)
      else .error (objectIssues schema fields)
  | _ => .error [⟨"", "Expected object, received other"⟩]

/-- Model of `registerSchema` of `auth.validator.ts`. -/
def registerSchemaZ : ZObjectSchema :=
  ⟨[("email", ⟨[.email "Invalid email address"]⟩),
    ("password", ⟨[.minLen 6 "Password must be at least 6 characters"]⟩),
    ("firstName", ⟨[.minLen 1 "First name is required"]⟩),
    ("lastName", ⟨[.minLen 1 "Last name is required"]⟩)]⟩

/-- Model of `loginSchema` of `auth.validator.ts`. -/
def loginSchemaZ : ZObjectSchema :=
  ⟨[("email", ⟨[.email "Invalid email address"]⟩),
    ("password", ⟨[.minLen 1 "Password is required"]⟩)]⟩

/-! ## Error taxonomy (`utils/error.ts`)

`AppError` subclasses each fix a status code and an operational flag; only
the six subclasses below are constructed by the core. -/

/-- The kind of an `AppError` subclass. -/
inductive ErrKind where
  | badRequest | unauthorized | forbidden | notFound | conflict | internal
  deriving Repr, DecidableEq

/-- Model of `statusCode` fixed by each subclass constructor. -/
def ErrKind.statusCode : ErrKind → Nat
  | .badRequest => 400
  | .unauthorized => 401
  | .forbidden => 403
  | .notFound => 404
  | .conflict => 409
  | .internal => 500

/-- Model of `isOperational` fixed by each subclass constructor (`true` everywhere
except `InternalServerError`). -/
def ErrKind.isOperational : ErrKind → Bool
  | .internal => false
  | _ => true

/-- A thrown `AppError`: its subclass kind and message. -/
structure AppErr where
  kind : ErrKind
  message : String
  deriving Repr, DecidableEq

/-! ## HTTP requests and responses -/

/-- JWT claims payload (`JwtPayload` of `api.types.ts`). -/
structure JwtPayload where
  userId : String
  email : String
  deriving Repr, DecidableEq

/-- Public user profile (`UserProfileResponse`). -/
structure UserProfile where
  id : String
  email : String
  firstName : String
  lastName : String
  deriving Repr, DecidableEq

/-- A signed token: the secret used to sign it (idealized signature), the
claims, and the absolute expiry instant (`iat + expiresIn`). -/
structure SignedToken where
  secretUsed : String
  payload : JwtPayload
  exp : Nat
  deriving Repr, DecidableEq

/-- Response bodies produced by this core (`utils/response.ts`): error
bodies `{error, details?}`, auth bodies `{token, user}`, and plain profile
bodies. -/
inductive RespBody where
  | errorBody (error : String) (details : Option (List ZIssue))
  | authBody (token : SignedToken) (user : UserProfile)
  | profileBody (user : UserProfile)
  deriving Repr, DecidableEq

/-- An HTTP response: status code and JSON body. -/
structure HttpResponse where
  status : Nat
  body : RespBody
  deriving Repr, DecidableEq

/-- The mutable slots of an Express request the middleware touches. -/
structure Req where
  body : JVal
  query : JVal
  params : JVal

/-- The validation middleware's target slot. -/
inductive Target where
  | body | query | params
  deriving Repr, DecidableEq

/-- Read a target slot (`req[target]`). -/
def Req.get (req : Req) : Target → JVal
  | .body => req.body
  | .query => req.query
  | .params => req.params

/-- Replace a target slot (`req[target] = ...`). -/
def Req.set (req : Req) (t : Target) (v : JVal) : Req :=
  match t with
  | .body => { req with body := v }
  | .query => { req with query := v }
  | .params => { req with params := v }

/-! ## Validation middleware (`middleware/validate.ts`) -/

/-- Result of running one middleware: the response it sent (if it
short-circuited), the request state afterwards, and whether it called
`next()` (i.e. whether the downstream handler runs). -/
structure MwStep where
  response : Option HttpResponse
  req : Req
  calledNext : Bool

/-- Model of `validate(schema, target)`: parse `req[target]`; on failure respond
`400` with the fixed top-level string and the full mapped issue list and do
not call `next`; on success substitute the parse output into the slot and
continue. -/
def validate (schema : ZObjectSchema) (target : Target) (req : Req) : MwStep :=
  match safeParse schema (req.get target) with
  | .error issues =>
      { response := some ⟨400, .errorBody "Invalid request data" (some issues)⟩,
        req := req, calledNext := false }
  | .ok parsed =>
      { response := none, req := req.set target parsed, calledNext := true }

/-! ## JWT utilities (`jsonwebtoken` + `AuthService.generateJwtToken` /
`AuthService.verifyJwtToken`)

Tokens are modelled with an idealized signature: a signed token records the
secret it was signed with, and signature verification checks that secret
against the server's.  A token value is either such a structure or a
malformed string.  `jsonwebtoken`'s `verify` throws `TokenExpiredError`
(a token whose signature checks out but whose `exp` is not after the clock),
or `JsonWebTokenError` (bad format or bad signature); the model keeps a
third, never-produced error case to mirror the `catch` structure of
`verifyJwtToken`, which has a fall-through branch for errors of any other
class. -/

/-- A token value as received from the wire. -/
inductive Token where
  | malformed (raw : String)
  | signed (t : SignedToken)
  deriving Repr, DecidableEq

/-- The errors `jwt.verify` can throw. `other` mirrors the code's defensive
third catch branch; `jwtVerify` never produces it. -/
inductive JsVerifyError where
  | tokenExpired
  | jsonWebTokenError
  | other (msg : String)
  deriving Repr, DecidableEq

/-- Model of `jwt.sign(payload, secret, {expiresIn})` at clock instant `now` with a
lifetime of `lifetime` time units. -/
def jwtSign (payload : JwtPayload) (secret : String) (now lifetime : Nat) : SignedToken :=
  ⟨secret, payload, now + lifetime⟩

/-- Model of `jwt.verify(token, secret)` at clock instant `now`: signature/format
first (`JsonWebTokenError`), then expiry (`TokenExpiredError`, thrown when
the clock has reached `exp`), then the decoded claims. -/
def jwtVerify (tok : Token) (secret : String) (now : Nat) : Except JsVerifyError JwtPayload :=
  match tok with
  | .malformed _ => .error .jsonWebTokenError
  | .signed t =>
      if t.secretUsed ≠ secret then .error .jsonWebTokenError
      else if t.exp ≤ now then .error .tokenExpired
      else .ok t.payload

/-- Model of `AuthService.verifyJwtToken`: maps `TokenExpiredError` to
`UnauthorizedError "Authentication token expired"`, `JsonWebTokenError` to
`UnauthorizedError "Invalid authentication token"`, and anything else to
`UnauthorizedError "Authentication failed"`. -/
def verifyJwtToken (tok : Token) (secret : String) (now : Nat) : Except AppErr JwtPayload :=
  match jwtVerify tok secret now with
  | .ok payload => .ok payload
  | .error .tokenExpired => .error ⟨.unauthorized, "Authentication token expired"⟩
  | .error .jsonWebTokenError => .error ⟨.unauthorized, "Invalid authentication token"⟩
  | .error (.other _) => .error ⟨.unauthorized, "Authentication failed"⟩

/-- Concrete wire encoding of a signed token (fields joined with `"|"`),
used only to give the auth middleware a string to slice. -/
def encodeToken (t : SignedToken) : String :=
  t.secretUsed ++ "|" ++ t.payload.userId ++ "|" ++ t.payload.email ++ "|" ++ toString t.exp

/-- Parse a nonempty decimal digit string (kernel-reducible counterpart of
`String.toNat?`). -/
def charsToNat? (cs : List Char) : Option Nat :=
  match cs with
  | [] => none
  | _ =>
      cs.foldl
        (fun acc c =>
          match acc with
          | none => none
          | some n => if c.isDigit then some (n * 10 + (c.toNat - 48)) else none)
        (some 0)

/-- Decode a wire token string; anything that does not parse is malformed. -/
def decodeToken (s : String) : Token :=
  match splitOnChar '|' s with
  | [sec, uid, em, expStr] =>
      match charsToNat? expStr.toList with
      | some e => .signed ⟨sec, ⟨uid, em⟩, e⟩
      | none => .malformed s
  | _ => .malformed s

/-- Model of `verifyJwtToken` on a wire token string. -/
def verifyJwtTokenStr (s : String) (secret : String) (now : Nat) : Except AppErr JwtPayload :=
  verifyJwtToken (decodeToken s) secret now

/-! ## bcrypt model and the user collection -/

/-- An idealized bcrypt hash: records the salt rounds and the hashed
plaintext; `bcryptCompare` succeeds exactly on the original plaintext
(bcrypt's verification contract, collisions ignored). -/
structure BcryptHash where
  saltRounds : Nat
  hashed : String
  deriving Repr, DecidableEq

/-- Model of `bcrypt.hash(plaintext, saltRounds)`. -/
def bcryptHash (plaintext : String) (saltRounds : Nat) : BcryptHash :=
  ⟨saltRounds, plaintext⟩

/-- Model of `bcrypt.compare(plaintext, hash)`. -/
def bcryptCompare (plaintext : String) (h : BcryptHash) : Bool :=
  h.hashed = plaintext

/-- A persisted user document (the `User` model). -/
structure StoredUser where
  id : String
  email : String
  password : BcryptHash
  firstName : String
  lastName : String
  deriving Repr, DecidableEq

/-- The user collection. -/
abbrev Db := List StoredUser

/-- Model of `User.findOne({email})`: first document with that email. -/
def findOneByEmail (db : Db) (email : String) : Option StoredUser :=
  List.find? (fun u => u.email = email) db

/-- Model of `User.findById(id)`. -/
def findById (db : Db) (id : String) : Option StoredUser :=
  List.find? (fun u => u.id = id) db

/-- The public profile of a stored user. -/
def StoredUser.profile (u : StoredUser) : UserProfile :=
  ⟨u.id, u.email, u.firstName, u.lastName⟩

/-! ## Auth service (`services/auth.service.ts`)

The service is modelled with explicit state passing: the user collection in,
the (possibly updated) collection out, together with effect counters (bcrypt
hash invocations, persisted writes) so the claims about side effects are
statable.  `freshId` stands for the database-assigned identifier of a newly
created document; `saltRounds` is fixed to 10 in the source. -/

/-- Outcome and effects of `AuthService.register`. -/
structure RegisterResult where
  db : Db
  hashes : Nat
  writes : Nat
  outcome : Except AppErr (String × UserProfile)

/-- Model of `AuthService.register(email, password, firstName, lastName)`: duplicate
check by email first; on a hit, throw `ConflictError` with no hashing and no
write; otherwise hash with bcrypt, persist one document, and return the
identifier and public profile. -/
def register (db : Db) (email password firstName lastName freshId : String) : RegisterResult :=
  match findOneByEmail db email with
  | some _ => ⟨db, 0, 0, .error ⟨.conflict, "User with this email already exists"⟩⟩
  | none =>
      let hashedPassword := bcryptHash password 10
      let user : StoredUser := ⟨freshId, email, hashedPassword, firstName, lastName⟩
      ⟨db ++ [user], 1, 1, .ok (freshId, user.profile)⟩

/-- Model of `AuthService.login(email, password)`: lookup by email, then
`bcrypt.compare`; both the missing-user and the wrong-password paths throw
`UnauthorizedError "Invalid email or password"`. -/
def login (db : Db) (email password : String) : Except AppErr (String × UserProfile) :=
  match findOneByEmail db email with
  | none => .error ⟨.unauthorized, "Invalid email or password"⟩
  | some user =>
      if bcryptCompare password user.password then .ok (user.id, user.profile)
      else .error ⟨.unauthorized, "Invalid email or password"⟩

/-- Model of `AuthService.getUserProfile(userId)`: lookup by identifier; missing →
`UnauthorizedError "User not found"`. -/
def getUserProfile (db : Db) (userId : String) : Except AppErr UserProfile :=
  match findById db userId with
  | none => .error ⟨.unauthorized, "User not found"⟩
  | some user => .ok user.profile

/-! ## Auth middleware (`middleware/auth.ts`) -/

/-- Result of `authenticateJWT`: the rejection response (if any), the
decoded claims attached to `req.user`, and whether `next()` ran. -/
structure AuthMwStep where
  response : Option HttpResponse
  user : Option JwtPayload
  calledNext : Bool
  deriving Repr, DecidableEq

/-- Strip the optional `"Bearer "` prefix from the header value
(`authHeader.startsWith("Bearer ") ? authHeader.slice(7) : authHeader`). -/
def bearerStrip (h : String) : String :=
  if List.isPrefixOf "Bearer ".toList h.toList then ⟨h.toList.drop 7⟩ else h

/-- Model of `authenticateJWT`: the JS guard `if (!authHeader)` treats an absent
header and a present-but-empty header alike; then the stripped token is
checked for emptiness; then verification runs, `UnauthorizedError` mapping
to 401 with the error's message and any other error class to 500
`"Authentication failed"`. -/
def authenticateJWT (authHeader : Option String) (secret : String) (now : Nat) : AuthMwStep :=
  match authHeader with
  | none => ⟨some ⟨401, .errorBody "Authorization header missing" none⟩, none, false⟩
  | some h =>
      if h = "" then ⟨some ⟨401, .errorBody "Authorization header missing" none⟩, none, false⟩
      else
        let token := bearerStrip h
        if token = "" then ⟨some ⟨401, .errorBody "Token missing" none⟩, none, false⟩
        else
          match verifyJwtTokenStr token secret now with
          | .ok decoded => ⟨none, some decoded, true⟩
          | .error e =>
              if e.kind = .unauthorized then ⟨some ⟨401, .errorBody e.message none⟩, none, false⟩
              else ⟨some ⟨500, .errorBody "Authentication failed" none⟩, none, false⟩

/-! ## Auth routes (`routes/auth.ts`) -/

/-- Read a string field out of a parsed body (the schemas guarantee the
field is a string when parsing succeeded). -/
def getStr (v : JVal) (key : String) : String :=
  match v with
  | .obj fields =>
      match lookupField fields key with
      | some (.str s) => s
      | _ => ""
  | _ => ""

/-- Result of the register route: response, updated collection, and the
service outcome it observed (`none` when validation short-circuited). -/
structure RegisterRouteResult where
  resp : HttpResponse
  db : Db
  serviceOutcome : Option (Except AppErr (String × UserProfile))

/-- Model of `POST /api/auth/register`: `validateBody(registerSchema)`, then the
handler calls `authService.register` and `generateJwtToken`; its `catch`
turns any thrown error into `sendInternalError(res, "Failed to register
user")` (status 500, no details). -/
def registerRoute (db : Db) (body : JVal) (freshId secret : String) (now lifetime : Nat) :
    RegisterRouteResult :=
  match safeParse registerSchemaZ body with
  | .error issues => ⟨⟨400, .errorBody "Invalid request data" (some issues)⟩, db, none⟩
  | .ok parsed =>
      let r := register db (getStr parsed "email") (getStr parsed "password")
        (getStr parsed "firstName") (getStr parsed "lastName") freshId
      match r.outcome with
      | .error _ => ⟨⟨500, .errorBody "Failed to register user" none⟩, r.db, some r.outcome⟩
      | .ok (userId, user) =>
          let token := jwtSign ⟨userId, user.email⟩ secret now lifetime
          ⟨⟨201, .authBody token user⟩, r.db, some r.outcome⟩

/-- Model of `POST /api/auth/login`: `validateBody(loginSchema)`, then the handler
calls `authService.login` and `generateJwtToken`; its `catch` turns any
thrown error into `sendUnauthorized(res, "Invalid email or password")`. -/
def loginRoute (db : Db) (body : JVal) (secret : String) (now lifetime : Nat) : HttpResponse :=
  match safeParse loginSchemaZ body with
  | .error issues => ⟨400, .errorBody "Invalid request data" (some issues)⟩
  | .ok parsed =>
      match login db (getStr parsed "email") (getStr parsed "password") with
      | .error _ => ⟨401, .errorBody "Invalid email or password" none⟩
      | .ok (userId, user) =>
          let token := jwtSign ⟨userId, user.email⟩ secret now lifetime
          ⟨200, .authBody token user⟩

/-- Model of `GET /api/auth/me`: `authenticateJWT`, then the handler guards
`req.user`, calls `authService.getUserProfile`, and its `catch` turns any
thrown error — including the service's `UnauthorizedError "User not
found"` — into `sendInternalError(res, "Failed to fetch user profile")`.
Returns the response together with the service outcome the handler observed
(`none` when the middleware rejected or the handler did not call it). -/
def meRoute (db : Db) (authHeader : Option String) (secret : String) (now : Nat) :
    HttpResponse × Option (Except AppErr UserProfile) :=
  let step := authenticateJWT authHeader secret now
  match step.response with
  | some resp => (resp, none)
  | none =>
      match step.user with
      | none => (⟨401, .errorBody "User not authenticated" none⟩, none)
      | some decoded =>
          match getUserProfile db decoded.userId with
          | .ok userProfile => (⟨200, .profileBody userProfile⟩, some (.ok userProfile))
          | .error e => (⟨500, .errorBody "Failed to fetch user profile" none⟩, some (.error e))

/-! ## Sequential registrations (for the uniqueness invariant) -/

/-- A registration request's fields. -/
structure RegReq where
  email : String
  password : String
  firstName : String
  lastName : String

/-- Run a sequence of registrations one after the other, threading the
collection; fresh identifiers are drawn from a counter. -/
def runRegs (db : Db) (reqs : List RegReq) (nextId : Nat) : Db :=
  match reqs with
  | [] => db
  | r :: rs =>
      runRegs (register db r.email r.password r.firstName r.lastName (toString nextId)).db
        rs (nextId + 1)

/-- The collection holds at most one document per email. -/
def distinctEmails (db : Db) : Prop :=
  db.Pairwise (fun a b => a.email ≠ b.email)

/-! ## Global error handler (`middleware/error-handler.ts`) -/

/-- Model of `config.nodeEnv` (a three-valued enum in `config.ts`). -/
inductive NodeEnv where
  | development | production | test
  deriving Repr, DecidableEq

/-- A `details` payload attached to an error or a response: a JS object
(field list) or a non-object primitive. -/
inductive Details where
  | obj (fields : List (String × String))
  | prim (s : String)
  deriving Repr, DecidableEq

/-- An error reaching the global handler: an `AppError` (kind, message, its
own `details`, its stack) or any other thrown error. -/
inductive ErrValue where
  | appError (e : AppErr) (details : Option Details) (stack : Option String)
  | plainError (message : String) (stack : Option String)
  deriving Repr, DecidableEq

/-- Model of `err.stack`. -/
def ErrValue.stack : ErrValue → Option String
  | .appError _ _ st => st
  | .plainError _ st => st

/-- The response the global handler produces. -/
structure ErrResponse where
  status : Nat
  error : String
  details : Option Details
  deriving Repr, DecidableEq

/-- Model of `{ ...(typeof details === "object" && details !== null ? details : {}),
stack: err.stack }`: spread the previous details when they are an object,
otherwise start fresh, and add the `stack` field. -/
def mergeStack (details : Option Details) (stack : String) : Details :=
  match details with
  | some (.obj fields) => .obj (fields ++ [("stack", stack)])
  | some (.prim _) => .obj [("stack", stack)]
  | none => .obj [("stack", stack)]

/-- Model of `errorHandler`: `AppError` instances keep their own status code, message
and details; anything else becomes `500` / `"Internal server error"` with no
details; then, when `config.nodeEnv === "development"` and the error has a
stack, the stack is merged into the response's details. -/
def errorHandler (err : ErrValue) (env : NodeEnv) : ErrResponse :=
  let base : ErrResponse :=
    match err with
    | .appError e details _ => ⟨e.kind.statusCode, e.message, details⟩
    | .plainError _ _ => ⟨500, "Internal server error", none⟩
  match env, err.stack with
  | .development, some st => { base with details := some (mergeStack base.details st) }
  | _, _ => base

/-! ## Shared helper lemmas -/

/-- Every failure of `verifyJwtToken` is an `UnauthorizedError`. -/
theorem verifyJwtToken_error_kind {tok : Token} {secret : String} {now : Nat} {e : AppErr}
    (h : verifyJwtToken tok secret now = .error e) : e.kind = .unauthorized := by
  unfold verifyJwtToken at h
  cases hv : jwtVerify tok secret now <;> rw [hv] at h
  · rename_i je
    cases je <;> injection h with h2 <;> subst h2 <;> rfl
  · exact Except.noConfusion h

/-! ## Claims -/

/-- C7: `verifyJwtToken` has exactly two failure outcomes — the
expired-credential error (`UnauthorizedError "Authentication token
expired"`), produced exactly when the token is well-formed and correctly
signed but the clock has reached its encoded expiry, and the
invalid-credential error (`UnauthorizedError "Invalid authentication
token"`), produced exactly when the format or signature check fails; the
defensive third catch branch (`"Authentication failed"`) is unreachable. -/
theorem verifyJwtToken_outcomes (tok : Token) (secret : String) (now : Nat) :
    ((∃ p, verifyJwtToken tok secret now = .ok p) ∨
      verifyJwtToken tok secret now = .error ⟨.unauthorized, "Authentication token expired"⟩ ∨
      verifyJwtToken tok secret now = .error ⟨.unauthorized, "Invalid authentication token"⟩) ∧
    (verifyJwtToken tok secret now = .error ⟨.unauthorized, "Authentication token expired"⟩ ↔
      ∃ t, tok = .signed t ∧ t.secretUsed = secret ∧ t.exp ≤ now) ∧
    (verifyJwtToken tok secret now = .error ⟨.unauthorized, "Invalid authentication token"⟩ ↔
      ((∃ raw, tok = .malformed raw) ∨ ∃ t, tok = .signed t ∧ t.secretUsed ≠ secret)) := by
  unfold verifyJwtToken jwtVerify
  rcases tok with raw | t
  · simp
  · by_cases hs : t.secretUsed = secret
    · by_cases he : t.exp ≤ now
      · simp [hs, he]
      · simp [hs, he]
    · simp [hs]

/-- C8: verifying a token immediately after issuing it from claims `c`
succeeds and returns exactly `c`; once the configured lifetime has elapsed
(the clock has advanced to `iat + lifetime` or beyond), verifying that same
token fails with the expired-credential error. -/
theorem token_roundtrip (c : JwtPayload) (secret : String) (now lifetime : Nat)
    (hpos : 0 < lifetime) :
    verifyJwtToken (.signed (jwtSign c secret now lifetime)) secret now = .ok c ∧
    ∀ later, now + lifetime ≤ later →
      verifyJwtToken (.signed (jwtSign c secret now lifetime)) secret later =
        .error ⟨.unauthorized, "Authentication token expired"⟩ := by
  constructor
  · unfold verifyJwtToken jwtVerify jwtSign
    have h1 : ¬ (now + lifetime ≤ now) := by omega
    simp [h1]
  · intro later hlater
    unfold verifyJwtToken jwtVerify jwtSign
    simp [hlater]

/-- Witness for C8 at concrete claims, secret, clock and lifetime. -/
theorem token_roundtrip_witness :
    (0 < 5 ∧
      (verifyJwtToken (.signed (jwtSign ⟨"u1", "a@b.com"⟩ "sek" 0 5)) "sek" 0 =
        .ok ⟨"u1", "a@b.com"⟩ ∧
      ∀ later, 0 + 5 ≤ later →
        verifyJwtToken (.signed (jwtSign ⟨"u1", "a@b.com"⟩ "sek" 0 5)) "sek" later =
          .error ⟨.unauthorized, "Authentication token expired"⟩)) :=
  ⟨by decide, token_roundtrip ⟨"u1", "a@b.com"⟩ "sek" 0 5 (by decide)⟩

/-- C1: when the submitted email already belongs to a persisted user, the
service fails with `Conflict` (a 409-class error), but the register route's
`catch` replaces it: the HTTP response has status 500 and body
`{error: "Failed to register user"}`, not a 409 conflict. -/
theorem register_conflict_masked_as_500 (db : Db) (body parsed : JVal)
    (freshId secret : String) (now lifetime : Nat)
    (hparse : safeParse registerSchemaZ body = .ok parsed)
    (hdup : ∃ u ∈ db, u.email = getStr parsed "email") :
    (registerRoute db body freshId secret now lifetime).serviceOutcome =
      some (.error ⟨.conflict, "User with this email already exists"⟩) ∧
    (⟨.conflict, "User with this email already exists"⟩ : AppErr).kind.statusCode = 409 ∧
    (registerRoute db body freshId secret now lifetime).resp =
      ⟨500, .errorBody "Failed to register user" none⟩ ∧
    (registerRoute db body freshId secret now lifetime).resp.status ≠ 409 := by
  have hsome : (findOneByEmail db (getStr parsed "email")).isSome := by
    rw [findOneByEmail, List.find?_isSome]
    obtain ⟨u, hu, he⟩ := hdup
    exact ⟨u, hu, by simp [he]⟩
  obtain ⟨v, hv⟩ := Option.isSome_iff_exists.mp hsome
  unfold registerRoute
  rw [hparse]
  simp [register, hv]
  rfl

/-- Witness for C1: a concrete collection already holding `a@b.com` and a
valid register body for the same email. -/
theorem register_conflict_masked_as_500_witness :
    (safeParse registerSchemaZ
        (.obj [("email", .str "a@b.com"), ("password", .str "secret1"),
          ("firstName", .str "A"), ("lastName", .str "B")]) =
      .ok (.obj [("email", .str "a@b.com"), ("password", .str "secret1"),
        ("firstName", .str "A"), ("lastName", .str "B")]) ∧
      ∃ u ∈ [(⟨"u1", "a@b.com", bcryptHash "secret1" 10, "A", "B"⟩ : StoredUser)],
        u.email = getStr (.obj [("email", .str "a@b.com"), ("password", .str "secret1"),
          ("firstName", .str "A"), ("lastName", .str "B")]) "email") ∧
    ((registerRoute [⟨"u1", "a@b.com", bcryptHash "secret1" 10, "A", "B"⟩]
        (.obj [("email", .str "a@b.com"), ("password", .str "secret1"),
          ("firstName", .str "A"), ("lastName", .str "B")]) "u2" "sek" 0 100).serviceOutcome =
      some (.error ⟨.conflict, "User with this email already exists"⟩) ∧
    (⟨.conflict, "User with this email already exists"⟩ : AppErr).kind.statusCode = 409 ∧
    (registerRoute [⟨"u1", "a@b.com", bcryptHash "secret1" 10, "A", "B"⟩]
        (.obj [("email", .str "a@b.com"), ("password", .str "secret1"),
          ("firstName", .str "A"), ("lastName", .str "B")]) "u2" "sek" 0 100).resp =
      ⟨500, .errorBody "Failed to register user" none⟩ ∧
    (registerRoute [⟨"u1", "a@b.com", bcryptHash "secret1" 10, "A", "B"⟩]
        (.obj [("email", .str "a@b.com"), ("password", .str "secret1"),
          ("firstName", .str "A"), ("lastName", .str "B")]) "u2" "sek" 0 100).resp.status ≠ 409) :=
  ⟨⟨by rfl, ⟨"u1", "a@b.com", bcryptHash "secret1" 10, "A", "B"⟩, by simp, by rfl⟩,
    register_conflict_masked_as_500 _ _ _ _ _ _ _ (by rfl)
      ⟨⟨"u1", "a@b.com", bcryptHash "secret1" 10, "A", "B"⟩, by simp, by rfl⟩⟩

/-- C2: a login attempt whose email matches no stored user and a login
attempt whose email matches a user but whose password fails the bcrypt
comparison produce one and the same HTTP outcome — status 401 with body
`{error: "Invalid email or password"}` — so the caller cannot distinguish
the two cases. -/
theorem login_indistinguishable (db : Db) (body parsed : JVal) (secret : String)
    (now lifetime : Nat)
    (hparse : safeParse loginSchemaZ body = .ok parsed)
    (hcase : findOneByEmail db (getStr parsed "email") = none ∨
      ∃ u, findOneByEmail db (getStr parsed "email") = some u ∧
        bcryptCompare (getStr parsed "password") u.password = false) :
    loginRoute db body secret now lifetime =
      ⟨401, .errorBody "Invalid email or password" none⟩ := by
  unfold loginRoute
  rw [hparse]
  rcases hcase with hnone | ⟨u, hu, hcmp⟩
  · simp [login, hnone]
  · simp [login, hu, hcmp]

/-- Witness for C2: the two cases at concrete inputs — an empty collection
(no such user) and a collection whose `a@b.com` user has a different
password — both yield the identical 401 response. -/
theorem login_indistinguishable_witness :
    ((safeParse loginSchemaZ (.obj [("email", .str "a@b.com"), ("password", .str "wrong1")]) =
        .ok (.obj [("email", .str "a@b.com"), ("password", .str "wrong1")]) ∧
      findOneByEmail [] (getStr (.obj [("email", .str "a@b.com"),
        ("password", .str "wrong1")]) "email") = none) ∧
      loginRoute [] (.obj [("email", .str "a@b.com"), ("password", .str "wrong1")])
        "sek" 0 100 = ⟨401, .errorBody "Invalid email or password" none⟩) ∧
    ((safeParse loginSchemaZ (.obj [("email", .str "a@b.com"), ("password", .str "wrong1")]) =
        .ok (.obj [("email", .str "a@b.com"), ("password", .str "wrong1")]) ∧
      bcryptCompare "wrong1" (bcryptHash "secret1" 10) = false) ∧
      loginRoute [(⟨"u1", "a@b.com", bcryptHash "secret1" 10, "A", "B"⟩ : StoredUser)]
        (.obj [("email", .str "a@b.com"), ("password", .str "wrong1")])
        "sek" 0 100 = ⟨401, .errorBody "Invalid email or password" none⟩) :=
  ⟨⟨⟨by rfl, by rfl⟩,
      login_indistinguishable [] _ _ "sek" 0 100 (by rfl) (Or.inl (by rfl))⟩,
    ⟨⟨by rfl, by rfl⟩,
      login_indistinguishable [⟨"u1", "a@b.com", bcryptHash "secret1" 10, "A", "B"⟩]
        _ _ "sek" 0 100 (by rfl)
        (Or.inr ⟨⟨"u1", "a@b.com", bcryptHash "secret1" 10, "A", "B"⟩, by rfl, by rfl⟩)⟩⟩

/-- C3 counterexample: a request whose `Authorization` header is present
but empty. The claim requires the "Token missing" rejection (the header is
present and the token is empty after stripping), but the code's `!authHeader`
guard fires first and responds "Authorization header missing". -/
theorem auth_mw_empty_header_cex :
    authenticateJWT (some "") "sek" 0 =
      ⟨some ⟨401, .errorBody "Authorization header missing" none⟩, none, false⟩ ∧
    (⟨some ⟨401, .errorBody "Authorization header missing" none⟩, none, false⟩ : AuthMwStep) ≠
      ⟨some ⟨401, .errorBody "Token missing" none⟩, none, false⟩ := by
  exact ⟨rfl, by decide⟩

/-- C3 (amended): the auth middleware is a three-outcome gate, with the
absent-header rejection also covering a present-but-empty header: absent or
empty header → 401 "Authorization header missing"; present nonempty header
whose token is empty after stripping the optional `"Bearer "` prefix → 401
"Token missing"; token verification failure → 401 with that failure's
message (never the defensive 500 branch); verification success → claims
attached and `next()` called. -/
theorem auth_mw_gate (authHeader : Option String) (secret : String) (now : Nat) :
    ((authHeader = none ∨ authHeader = some "") →
      authenticateJWT authHeader secret now =
        ⟨some ⟨401, .errorBody "Authorization header missing" none⟩, none, false⟩) ∧
    (∀ h, authHeader = some h → h ≠ "" → bearerStrip h = "" →
      authenticateJWT authHeader secret now =
        ⟨some ⟨401, .errorBody "Token missing" none⟩, none, false⟩) ∧
    (∀ h e, authHeader = some h → h ≠ "" → bearerStrip h ≠ "" →
      verifyJwtTokenStr (bearerStrip h) secret now = .error e →
      authenticateJWT authHeader secret now =
        ⟨some ⟨401, .errorBody e.message none⟩, none, false⟩) ∧
    (∀ h claims, authHeader = some h → h ≠ "" → bearerStrip h ≠ "" →
      verifyJwtTokenStr (bearerStrip h) secret now = .ok claims →
      authenticateJWT authHeader secret now = ⟨none, some claims, true⟩) := by
  refine ⟨?_, ?_, ?_, ?_⟩
  · rintro (rfl | rfl)
    · rfl
    · rfl
  · rintro h rfl hne hstrip
    simp [authenticateJWT, hne, hstrip]
  · rintro h e rfl hne hstrip hverify
    have hkind : e.kind = .unauthorized := verifyJwtToken_error_kind hverify
    simp [authenticateJWT, hne, hstrip, hverify, hkind]
  · rintro h claims rfl hne hstrip hverify
    simp [authenticateJWT, hne, hstrip, hverify]

/-- Witness for C3's amended theorem: a present header `"Bearer x"` whose
token fails verification as invalid, rejected 401 with that message. -/
theorem auth_mw_gate_witness :
    (("Bearer x" : String) ≠ "" ∧ bearerStrip "Bearer x" ≠ "" ∧
      verifyJwtTokenStr (bearerStrip "Bearer x") "sek" 0 =
        .error ⟨.unauthorized, "Invalid authentication token"⟩) ∧
    authenticateJWT (some "Bearer x") "sek" 0 =
      ⟨some ⟨401, .errorBody "Invalid authentication token" none⟩, none, false⟩ :=
  ⟨⟨by decide, by decide, by rfl⟩,
    (auth_mw_gate (some "Bearer x") "sek" 0).2.2.1 "Bearer x"
      ⟨.unauthorized, "Invalid authentication token"⟩ rfl (by decide) (by decide) (by rfl)⟩

/-- C4: when the target data violates the schema, the validation middleware
responds 400 with top-level error exactly "Invalid request data" and the
full issue list as details, never calls the route handler, and leaves the
request (in particular the target slot) unchanged; for an object input the
details are the concatenation of every field's violations, and every
violated string check of every shape field contributes its own
`{path, message}` entry — not only the first. -/
theorem validate_all_violations (schema : ZObjectSchema) (target : Target) (req : Req)
    (issues : List ZIssue) (herr : safeParse schema (req.get target) = .error issues) :
    validate schema target req =
      ⟨some ⟨400, .errorBody "Invalid request data" (some issues)⟩, req, false⟩ ∧
    ∀ fields, req.get target = .obj fields →
      issues = objectIssues schema fields ∧
      ∀ key f s msg, (key, f) ∈ schema.shape →
        lookupField fields key = some (.str s) →
        (∃ c ∈ f.checks, runStrCheck c s = some msg) →
        (⟨key, msg⟩ : ZIssue) ∈ issues := by
  constructor
  · simp [validate, herr]
  · intro fields hf
    rw [hf] at herr
    unfold safeParse at herr
    by_cases hempty : objectIssues schema fields = []
    · simp [hempty] at herr
    · simp only [hempty, if_false] at herr
      injection herr with hiss
      subst hiss
      refine ⟨rfl, ?_⟩
      rintro key f s msg hshape hlook ⟨c, hc, hrun⟩
      rw [objectIssues, List.mem_flatMap]
      refine ⟨(key, f), hshape, ?_⟩
      rw [hlook]
      unfold fieldIssues
      rw [List.mem_map]
      exact ⟨msg, List.mem_filterMap.mpr ⟨c, hc, hrun⟩, rfl⟩

/-- A register body violating four independent constraints at once: bad
email format, short password, empty first name, missing last name. -/
def badRegReq : Req :=
  ⟨.obj [("email", .str "not-an-email"), ("password", .str "abc"),
    ("firstName", .str "")], .jnull, .jnull⟩

/-- The four issues the register schema reports on `badRegReq`. -/
def badRegIssues : List ZIssue :=
  [⟨"email", "Invalid email address"⟩,
    ⟨"password", "Password must be at least 6 characters"⟩,
    ⟨"firstName", "First name is required"⟩,
    ⟨"lastName", "Required"⟩]

/-- Witness for C4: the four-violation body produces the single 400
response listing all four violations, with the handler not invoked and the
request unchanged. -/
theorem validate_all_violations_witness :
    safeParse registerSchemaZ (badRegReq.get .body) = .error badRegIssues ∧
    (validate registerSchemaZ .body badRegReq =
      ⟨some ⟨400, .errorBody "Invalid request data" (some badRegIssues)⟩, badRegReq, false⟩ ∧
    ∀ fields, badRegReq.get .body = .obj fields →
      badRegIssues = objectIssues registerSchemaZ fields ∧
      ∀ key f s msg, (key, f) ∈ registerSchemaZ.shape →
        lookupField fields key = some (.str s) →
        (∃ c ∈ f.checks, runStrCheck c s = some msg) →
        (⟨key, msg⟩ : ZIssue) ∈ badRegIssues) :=
  ⟨by rfl, validate_all_violations registerSchemaZ .body badRegReq badRegIssues (by rfl)⟩

/-- C10: when the schema accepts the target data, the middleware substitutes
exactly the schema's parse output into the request before the handler runs,
and the parse output of these plain object schemas carries only the shape's
keys — for the register schema exactly `email`, `password`, `firstName`,
`lastName` (and for login `email`, `password`) — so any extra submitted
fields are silently dropped before the handler or service sees the body. -/
theorem validate_success_parse_output (schema : ZObjectSchema) (target : Target) (req : Req)
    (parsed : JVal) (hok : safeParse schema (req.get target) = .ok parsed) :
    validate schema target req = ⟨none, req.set target parsed, true⟩ ∧
    (∀ fields, parsed = .obj fields → ∀ kv ∈ fields, kv.1 ∈ schema.shape.map Prod.fst) ∧
    registerSchemaZ.shape.map Prod.fst = ["email", "password", "firstName", "lastName"] ∧
    loginSchemaZ.shape.map Prod.fst = ["email", "password"] := by
  refine ⟨by simp [validate, hok], ?_, by rfl, by rfl⟩
  intro fields hparsed kv hkv
  rcases hb : req.get target with s | n | b | _ | fields0 <;> rw [hb] at hok <;>
    try exact Except.noConfusion hok
  unfold safeParse at hok
  by_cases hempty : objectIssues schema fields0 = []
  · simp only [hempty, if_true] at hok
    injection hok with hp
    rw [← hp] at hparsed
    unfold objectParsed at hparsed
    injection hparsed with hfields
    rw [← hfields] at hkv
    obtain ⟨kf, hkf, hmap⟩ := List.mem_filterMap.mp hkv
    rcases hfp : fieldParsed (lookupField fields0 kf.1) with _ | v <;> rw [hfp] at hmap
    · exact Option.noConfusion hmap
    · injection hmap with hkv2
      rw [List.mem_map]
      exact ⟨kf, hkf, by rw [← hkv2]⟩
  · simp [hempty] at hok

/-- Witness for C10: a register body carrying an extra `admin` field parses
to exactly the four schema keys — the handler observes the stripped body. -/
theorem validate_success_parse_output_witness :
    safeParse registerSchemaZ
        ((⟨.obj [("email", .str "a@b.com"), ("password", .str "secret1"),
          ("firstName", .str "A"), ("lastName", .str "B"), ("admin", .jbool true)],
          .jnull, .jnull⟩ : Req).get .body) =
      .ok (.obj [("email", .str "a@b.com"), ("password", .str "secret1"),
        ("firstName", .str "A"), ("lastName", .str "B")]) ∧
    (validate registerSchemaZ .body
        ⟨.obj [("email", .str "a@b.com"), ("password", .str "secret1"),
          ("firstName", .str "A"), ("lastName", .str "B"), ("admin", .jbool true)],
          .jnull, .jnull⟩ =
      ⟨none,
        (⟨.obj [("email", .str "a@b.com"), ("password", .str "secret1"),
          ("firstName", .str "A"), ("lastName", .str "B"), ("admin", .jbool true)],
          .jnull, .jnull⟩ : Req).set .body
          (.obj [("email", .str "a@b.com"), ("password", .str "secret1"),
            ("firstName", .str "A"), ("lastName", .str "B")]), true⟩ ∧
    (∀ fields,
      (JVal.obj [("email", .str "a@b.com"), ("password", .str "secret1"),
        ("firstName", .str "A"), ("lastName", .str "B")]) = .obj fields →
      ∀ kv ∈ fields, kv.1 ∈ registerSchemaZ.shape.map Prod.fst) ∧
    registerSchemaZ.shape.map Prod.fst = ["email", "password", "firstName", "lastName"] ∧
    loginSchemaZ.shape.map Prod.fst = ["email", "password"]) :=
  ⟨by rfl,
    validate_success_parse_output registerSchemaZ .body
      ⟨.obj [("email", .str "a@b.com"), ("password", .str "secret1"),
        ("firstName", .str "A"), ("lastName", .str "B"), ("admin", .jbool true)],
        .jnull, .jnull⟩
      (.obj [("email", .str "a@b.com"), ("password", .str "secret1"),
        ("firstName", .str "A"), ("lastName", .str "B")]) (by rfl)⟩

/-- The operation `register` preserves email distinctness of the collection. -/
theorem register_preserves_distinct (db : Db) (email password firstName lastName freshId : String)
    (h : distinctEmails db) :
    distinctEmails (register db email password firstName lastName freshId).db := by
  unfold register
  cases hf : findOneByEmail db email
  · have hall : ∀ u ∈ db, u.email ≠ email := by
      intro u hu
      have := List.find?_eq_none.mp hf u hu
      simpa using this
    simp only [distinctEmails, List.pairwise_append]
    refine ⟨h, by simp, ?_⟩
    intro a ha b hb
    simp only [List.mem_singleton] at hb
    subst hb
    exact hall a ha
  · simpa [distinctEmails] using h

/-- C5: on a duplicate email the service performs no bcrypt hashing and no
persisted write and leaves the collection unchanged, failing with
`Conflict`; on a fresh email it hashes once and performs exactly one
persisted write; consequently any sequence of sequential registrations,
starting from the empty collection, yields a collection with at most one
document per email. -/
theorem register_effects (db : Db) (email password firstName lastName freshId : String) :
    ((∃ u ∈ db, u.email = email) →
      register db email password firstName lastName freshId =
        ⟨db, 0, 0, .error ⟨.conflict, "User with this email already exists"⟩⟩) ∧
    ((¬ ∃ u ∈ db, u.email = email) →
      register db email password firstName lastName freshId =
        ⟨db ++ [⟨freshId, email, bcryptHash password 10, firstName, lastName⟩], 1, 1,
          .ok (freshId, ⟨freshId, email, firstName, lastName⟩)⟩) ∧
    ∀ reqs nextId, distinctEmails (runRegs [] reqs nextId) := by
  refine ⟨?_, ?_, ?_⟩
  · intro hdup
    have hsome : (findOneByEmail db email).isSome := by
      rw [findOneByEmail, List.find?_isSome]
      obtain ⟨u, hu, he⟩ := hdup
      exact ⟨u, hu, by simp [he]⟩
    obtain ⟨v, hv⟩ := Option.isSome_iff_exists.mp hsome
    simp [register, hv]
  · intro hfresh
    have hnone : findOneByEmail db email = none := by
      rw [findOneByEmail, List.find?_eq_none]
      intro u hu
      simp only [decide_eq_true_eq]
      exact fun he => hfresh ⟨u, hu, he⟩
    simp [register, hnone, StoredUser.profile]
  · have hrun : ∀ (reqs : List RegReq) (db : Db) (nextId : Nat),
        distinctEmails db → distinctEmails (runRegs db reqs nextId) := by
      intro reqs
      induction reqs with
      | nil => intro db nextId h; exact h
      | cons r rs ih =>
          intro db nextId h
          exact ih _ _ (register_preserves_distinct db r.email r.password r.firstName
            r.lastName (toString nextId) h)
    intro reqs nextId
    exact hrun reqs [] nextId (by simp [distinctEmails])

/-- Witness for C5: a conflicting registration against a one-user
collection leaves it untouched with zero hashes and writes; a registration
against the empty collection writes exactly once; a duplicate-email request
sequence still yields distinct emails. -/
theorem register_effects_witness :
    ((∃ u ∈ [(⟨"u1", "a@b.com", bcryptHash "secret1" 10, "A", "B"⟩ : StoredUser)],
        u.email = "a@b.com") ∧
      register [⟨"u1", "a@b.com", bcryptHash "secret1" 10, "A", "B"⟩]
          "a@b.com" "p2" "C" "D" "u2" =
        ⟨[⟨"u1", "a@b.com", bcryptHash "secret1" 10, "A", "B"⟩], 0, 0,
          .error ⟨.conflict, "User with this email already exists"⟩⟩) ∧
    ((¬ ∃ u ∈ ([] : Db), u.email = "a@b.com") ∧
      register [] "a@b.com" "secret1" "A" "B" "u1" =
        ⟨[⟨"u1", "a@b.com", bcryptHash "secret1" 10, "A", "B"⟩], 1, 1,
          .ok ("u1", ⟨"u1", "a@b.com", "A", "B"⟩)⟩) ∧
    distinctEmails
      (runRegs [] [⟨"a@b.com", "secret1", "A", "B"⟩, ⟨"a@b.com", "other1", "C", "D"⟩] 0) :=
  ⟨⟨⟨⟨"u1", "a@b.com", bcryptHash "secret1" 10, "A", "B"⟩, by simp, by rfl⟩,
      (register_effects [⟨"u1", "a@b.com", bcryptHash "secret1" 10, "A", "B"⟩]
        "a@b.com" "p2" "C" "D" "u2").1
        ⟨⟨"u1", "a@b.com", bcryptHash "secret1" 10, "A", "B"⟩, by simp, by rfl⟩⟩,
    ⟨by simp, (register_effects [] "a@b.com" "secret1" "A" "B" "u1").2.1 (by simp)⟩,
    (register_effects [] "" "" "" "" "").2.2
      [⟨"a@b.com", "secret1", "A", "B"⟩, ⟨"a@b.com", "other1", "C", "D"⟩] 0⟩

/-- C6 counterexample: a syntactically valid, unexpired token (signed with
the server secret, expiry 100, clock 5) whose `userId` matches no stored
user. The claim requires a 401 response, but the route's catch produces
status 500 with body `{error: "Failed to fetch user profile"}` even though
the service failed with the 401-class `UnauthorizedError "User not
found"`. -/
theorem me_route_deleted_user_cex :
    verifyJwtTokenStr "sek|u1|a@b.com|100" "sek" 5 = .ok ⟨"u1", "a@b.com"⟩ ∧
    meRoute [] (some "Bearer sek|u1|a@b.com|100") "sek" 5 =
      (⟨500, .errorBody "Failed to fetch user profile" none⟩,
        some (.error ⟨.unauthorized, "User not found"⟩)) ∧
    (500 : Nat) ≠ 401 :=
  ⟨rfl, rfl, by decide⟩

/-- C6 (amended): for a request passing the auth middleware whose decoded
`userId` matches no stored user, the service fails with the 401-class
`UnauthorizedError "User not found"`, but the route's catch-all replaces it
and the endpoint responds 500 `{error: "Failed to fetch user profile"}` —
so 401 is not the only failure status of this endpoint; when the user
exists, it responds 200 with the public profile `{id, email, firstName,
lastName}`. -/
theorem me_route_spec (db : Db) (h secret : String) (now : Nat) (claims : JwtPayload)
    (hauth : authenticateJWT (some h) secret now = ⟨none, some claims, true⟩) :
    (findById db claims.userId = none →
      getUserProfile db claims.userId = .error ⟨.unauthorized, "User not found"⟩ ∧
      (⟨.unauthorized, "User not found"⟩ : AppErr).kind.statusCode = 401 ∧
      meRoute db (some h) secret now =
        (⟨500, .errorBody "Failed to fetch user profile" none⟩,
          some (.error ⟨.unauthorized, "User not found"⟩))) ∧
    (∀ u, findById db claims.userId = some u →
      meRoute db (some h) secret now = (⟨200, .profileBody u.profile⟩, some (.ok u.profile))) := by
  constructor
  · intro hnone
    refine ⟨by simp [getUserProfile, hnone], rfl, ?_⟩
    simp [meRoute, hauth, getUserProfile, hnone]
  · intro u hu
    simp [meRoute, hauth, getUserProfile, hu]

/-- Witness for C6's amended theorem: the stored `u1` user is returned with
a 200 at a concrete valid token. -/
theorem me_route_spec_witness :
    authenticateJWT (some "Bearer sek|u1|a@b.com|100") "sek" 5 =
      ⟨none, some ⟨"u1", "a@b.com"⟩, true⟩ ∧
    findById [(⟨"u1", "a@b.com", bcryptHash "secret1" 10, "A", "B"⟩ : StoredUser)]
        (JwtPayload.mk "u1" "a@b.com").userId =
      some ⟨"u1", "a@b.com", bcryptHash "secret1" 10, "A", "B"⟩ ∧
    meRoute [⟨"u1", "a@b.com", bcryptHash "secret1" 10, "A", "B"⟩]
        (some "Bearer sek|u1|a@b.com|100") "sek" 5 =
      (⟨200, .profileBody (StoredUser.profile ⟨"u1", "a@b.com", bcryptHash "secret1" 10, "A", "B"⟩)⟩,
        some (.ok (StoredUser.profile ⟨"u1", "a@b.com", bcryptHash "secret1" 10, "A", "B"⟩))) :=
  ⟨by rfl, by rfl,
    (me_route_spec [⟨"u1", "a@b.com", bcryptHash "secret1" 10, "A", "B"⟩]
      "Bearer sek|u1|a@b.com|100" "sek" 5 ⟨"u1", "a@b.com"⟩ (by rfl)).2
      ⟨"u1", "a@b.com", bcryptHash "secret1" 10, "A", "B"⟩ (by rfl)⟩

/-- The `details` carried by the error itself, before any stack merge (the
handler's `details` local before the development-mode branch). -/
def baseDetails : ErrValue → Option Details
  | .appError _ d _ => d
  | .plainError _ _ => none

/-- C9 counterexample: in development mode a *classified* `ConflictError`
with a stack gets the stack merged into its details (the claim says the
merge happens exactly for unclassified errors), and in test mode — a
non-production mode — an unclassified error with a stack gets no stack (the
claim says the merge happens in every non-production mode). -/
theorem error_handler_stack_cex :
    (errorHandler (.appError ⟨.conflict, "dup"⟩ none (some "trace")) .development).details =
      some (.obj [("stack", "trace")]) ∧
    (errorHandler (.plainError "boom" (some "trace")) .test).details = none :=
  ⟨rfl, rfl⟩

/-- C9 (amended): a recognized application error keeps its own status code
and message (and its own details); any other error yields 500 with the
generic `"Internal server error"` body; and a `stack` field is merged into
the response's details exactly in development mode (not in every
non-production mode) and exactly when the error carries a stack — for
classified and unclassified errors alike. -/
theorem error_handler_spec (err : ErrValue) (env : NodeEnv) :
    (∀ e details stack, err = .appError e details stack →
      (errorHandler err env).status = e.kind.statusCode ∧
      (errorHandler err env).error = e.message) ∧
    (∀ msg stack, err = .plainError msg stack →
      (errorHandler err env).status = 500 ∧
      (errorHandler err env).error = "Internal server error") ∧
    (∀ st, env = .development → err.stack = some st →
      (errorHandler err env).details = some (mergeStack (baseDetails err) st)) ∧
    ((env ≠ .development ∨ err.stack = none) →
      (errorHandler err env).details = baseDetails err) := by
  refine ⟨?_, ?_, ?_, ?_⟩
  · rintro e details stack rfl
    cases env <;> cases stack <;> simp [errorHandler, ErrValue.stack]
  · rintro msg stack rfl
    cases env <;> cases stack <;> simp [errorHandler, ErrValue.stack]
  · rintro st rfl hst
    cases err <;> simp [ErrValue.stack] at hst <;>
      simp [errorHandler, ErrValue.stack, baseDetails, hst]
  · rintro (henv | hstack)
    · cases err <;> cases env <;> simp_all [errorHandler, ErrValue.stack, baseDetails]
    · cases err <;> simp [ErrValue.stack] at hstack <;>
        cases env <;> simp [errorHandler, ErrValue.stack, baseDetails, hstack]

/-- Witness for C9's amended theorem: a concrete unclassified error with a
stack in development mode gets `{stack}` merged, keeps status 500. -/
theorem error_handler_spec_witness :
    ((ErrValue.plainError "boom" (some "trace")).stack = some "trace" ∧
      (errorHandler (.plainError "boom" (some "trace")) .development).details =
        some (mergeStack (baseDetails (.plainError "boom" (some "trace"))) "trace")) ∧
    (errorHandler (.plainError "boom" (some "trace")) .development).status = 500 :=
  ⟨⟨rfl, (error_handler_spec (.plainError "boom" (some "trace")) .development).2.2.1
      "trace" rfl rfl⟩,
    ((error_handler_spec (.plainError "boom" (some "trace")) .development).2.1
      "boom" (some "trace") rfl).1⟩

end FullstackAuth
